import Mathlib

/-!
Verification of the jsonrpc repository (src/jsonrpc.py, src/rpc.py):
a shallow embedding of the protocol layer (marshalling/unmarshalling of
JSON-RPC 2.0 requests, responses and errors), the dispatcher, and the
per-connection handler, with theorems checking the specification's claims.

The repository is Python 2.  Values travelling through the serializer are
modelled by an inductive `Json` type; the JSON codec itself is an external
collaborator (json.dumps / json.loads), so the wire is modelled as either a
well-formed JSON document (`Wire.ok`) or malformed bytes (`Wire.bad`), with
`decode` the identity on well-formed documents and a ParseError on malformed
ones, exactly the contract the spec gives the Serializer.  Python-level
failures that are not part of the rpc error hierarchy (TypeError from
subscripting a non-dict, NameError from an unbound global) are modelled
explicitly, because the server's `except Error` clause distinguishes them.
-/

namespace JsonRpc

/-- A JSON document: the values json.loads can produce (numbers restricted to
integers, which is all the repository's envelopes use). -/
inductive Json where
  | null
  | bool (b : Bool)
  | num (n : Int)
  | str (s : String)
  | arr (xs : List Json)
  | obj (fields : List (String × Json))

/-- Lookup of a member in a decoded JSON object (Python `d[k]` / `d.get(k)`). -/
def getField? (fields : List (String × Json)) (k : String) : Option Json :=
  match fields with
  | [] => none
  | (k', v) :: rest => if k' = k then some v else getField? rest k

/-- Python `k in d` on a decoded JSON object. -/
def hasField (fields : List (String × Json)) (k : String) : Bool :=
  (getField? fields k).isSome

/-- The rpc.Error hierarchy of src/rpc.py (the seven concrete subclasses). -/
inductive RpcErrKind where
  | parseError
  | invalidRequestError
  | methodNotFoundError
  | invalidParamsError
  | invalidResponseError
  | protocolError
  | internalError
deriving DecidableEq, Repr

/-- An rpc.Error instance: its class and its argument tuple (every raise in
the repository passes strings, so args is a list of strings). -/
structure RpcErr where
  kind : RpcErrKind
  args : List String
deriving DecidableEq, Repr

/-- A Python exception as the connection handler can see it: an rpc.Error, or
a Python-level failure outside that hierarchy (TypeError, NameError). -/
inductive PyErr where
  | rpc (e : RpcErr)
  | typeError (msg : String)
  | nameError (msg : String)
deriving DecidableEq, Repr

/-- Python equality of a decoded JSON value against the string literal "2.0"
(src/jsonrpc.py lines 71 and 119): true exactly for the string "2.0". -/
def Json.isVersion20 : Json → Bool
  | .str s => s = "2.0"
  | _ => false

/-- Whether the exception is caught by `except Error` (rpc.py line 115). -/
def PyErr.isRpc : PyErr → Bool
  | .rpc _ => true
  | _ => false

/-- Bytes on the wire: a well-formed serialized JSON document, or malformed
bytes that json.loads rejects (`msg` is the decoder's complaint). -/
inductive Wire where
  | bad (msg : String)
  | ok (j : Json)

/-- JSONSerializer.decode (src/jsonrpc.py lines 33-37): json.loads, with a
ValueError re-raised as rpc.ParseError. -/
def decode (w : Wire) : Except PyErr Json :=
  match w with
  | .bad msg => .error (.rpc ⟨.parseError, [msg]⟩)
  | .ok j => .ok j

/-- JSONSerializer.encode (src/jsonrpc.py lines 27-31): json.dumps.  On the
`Json` model every value is representable, so encoding is total. -/
def encode (j : Json) : Wire := Wire.ok j

/-- The ERRORS table of src/jsonrpc.py lines 6-12: code and message for each
marshallable error class; classes absent from the table map to none. -/
def errorsTable (k : RpcErrKind) : Option (Int × String) :=
  match k with
  | .parseError => some (-32700, "Parse Error")
  | .invalidRequestError => some (-32600, "Invalid Request")
  | .methodNotFoundError => some (-32601, "Method not found")
  | .invalidParamsError => some (-32602, "Invalid params")
  | .internalError => some (-32603, "Internal error")
  | .invalidResponseError => none
  | .protocolError => none

/-- The EXCEPTIONS table of src/jsonrpc.py lines 15-21: wire code back to the
error class; unknown codes map to none (a KeyError in the source). -/
def exceptionsTable (c : Int) : Option RpcErrKind :=
  if c = -32700 then some .parseError
  else if c = -32600 then some .invalidRequestError
  else if c = -32601 then some .methodNotFoundError
  else if c = -32602 then some .invalidParamsError
  else if c = -32603 then some .internalError
  else none

/-- The message of the TypeError Python raises when `x[k]` subscripts a value
that is not a dict, per decoded value shape. -/
def pySubscriptMsg : Json → String
  | .arr _ => "list indices must be integers, not str"
  | .str _ => "string indices must be integers"
  | .num _ => "argument of type int is not iterable"
  | .bool _ => "argument of type bool is not iterable"
  | .null => "argument of type NoneType is not iterable"
  | .obj _ => ""

/-- The members of the request envelope JSONRPCProtocol.marshall_request
builds (src/jsonrpc.py lines 49-60) once the argument check has passed:
jsonrpc and method members, params only when there are arguments
(`args or kwargs`), then the fixed id 0. -/
def buildRequestFields (method : String) (args : List Json)
    (kwargs : List (String × Json)) : List (String × Json) :=
  [("jsonrpc", .str "2.0"), ("method", .str method)] ++
    (if !args.isEmpty then [("params", Json.arr args)]
     else if !kwargs.isEmpty then [("params", Json.obj kwargs)]
     else []) ++
    [("id", .num 0)]

/-- The request envelope as a JSON document. -/
def buildRequest (method : String) (args : List Json)
    (kwargs : List (String × Json)) : Json :=
  .obj (buildRequestFields method args kwargs)

/-- JSONRPCProtocol.marshall_request (src/jsonrpc.py lines 46-63): fails with
ProtocolError when both positional and keyword arguments are given, otherwise
serializes the request envelope. -/
def marshall_request (method : String) (args : List Json)
    (kwargs : List (String × Json)) : Except PyErr Wire :=
  if !args.isEmpty && !kwargs.isEmpty then
    .error (.rpc ⟨.protocolError,
      ["Cannot use both positional and keyword arguments"]⟩)
  else
    .ok (encode (buildRequest method args kwargs))

/-- JSONRPCProtocol.unmarshall_request (src/jsonrpc.py lines 65-91): decode,
validate the jsonrpc and method members, then read params.  The returned
quadruple is (raw request mapping, method, positional, keyword): a params
mapping becomes keyword arguments (the str() key coercion of line 89 is the
identity on string keys), an absent params the empty tuple, and any other
params value is passed through as the positional collection unchanged.
Subscripting a decoded non-mapping (line 71) raises a TypeError that the
`except KeyError` clauses do not catch. -/
def unmarshall_request (w : Wire) :
    Except PyErr (List (String × Json) × String × Json × List (String × Json)) :=
  match decode w with
  | .error e => .error e
  | .ok (.obj fields) =>
    match getField? fields "jsonrpc" with
    | none => .error (.rpc ⟨.invalidRequestError, ["No \"jsonrpc\" member found"]⟩)
    | some v =>
      if ¬ v.isVersion20 then
        .error (.rpc ⟨.invalidRequestError, ["Only JSON-RPC 2.0 is supported"]⟩)
      else
        match getField? fields "method" with
        | none => .error (.rpc ⟨.invalidRequestError, ["No \"method\" member found"]⟩)
        | some (.str m) =>
          match getField? fields "params" with
          | none => .ok (fields, m, .arr [], [])
          | some (.obj kvs) => .ok (fields, m, .arr [], kvs)
          | some p => .ok (fields, m, p, [])
        | some _ => .error (.rpc ⟨.invalidRequestError, ["\"method\" member must be string"]⟩)
  | .ok j => .error (.typeError (pySubscriptMsg j))

/-- The serialized form of the data member marshall_error stores: the args
tuple when non-empty (a JSON array of its strings), else `exc.args or None`
gives Python None, serialized as null. -/
def dataJson (args : List String) : Json :=
  if args = [] then .null else .arr (args.map .str)

/-- The JSON value of the error object JSONRPCProtocol.marshall_error returns
(src/jsonrpc.py lines 139-145) as it appears once serialized into a response:
code and message from the ERRORS table, data from the exception's args; an
exception class absent from the table yields no object (Python None).
(The table mutation marshall_error performs is modelled separately by
`marshall_error_st`.) -/
def marshallErrorJson (e : RpcErr) : Option Json :=
  match errorsTable e.kind with
  | none => none
  | some (c, m) =>
    some (.obj [("code", .num c), ("message", .str m), ("data", dataJson e.args)])

/-- JSONRPCProtocol.marshall_response (src/jsonrpc.py lines 93-111).  The
request argument is the decoded request mapping, or none when the request
could not be parsed (Python None).  Line 96 suppresses the response when
`request and 'id' not in request`: note an empty mapping is falsy in Python,
so it does not suppress.  Line 103 echoes the request id when the request is
truthy, else null.  An error, when present, is marshalled into the error
member (marshall_error can yield Python None, serialized as null); otherwise
the result member carries the result. -/
def marshall_response (request : Option (List (String × Json)))
    (result : Json) (error : Option RpcErr) : Option Wire :=
  match request with
  | some fields =>
    if !fields.isEmpty && !hasField fields "id" then
      none
    else
      let idv := if !fields.isEmpty then (getField? fields "id").getD .null else Json.null
      some (encode (.obj ([("jsonrpc", Json.str "2.0"), ("id", idv)] ++
        (match error with
         | some e => [("error", (marshallErrorJson e).getD .null)]
         | none => [("result", result)]))))
  | none =>
    some (encode (.obj ([("jsonrpc", Json.str "2.0"), ("id", Json.null)] ++
      (match error with
       | some e => [("error", (marshallErrorJson e).getD .null)]
       | none => [("result", result)]))))

/-- One hexadecimal digit, lower case, as Python uses in \xhh escapes. -/
def hexDigit (n : Nat) : Char :=
  if n < 10 then Char.ofNat (48 + n) else Char.ofNat (87 + n)

/-- The quote Python 2 repr picks for a str: double quotes when the text holds
a single quote but no double quote, else single quotes. -/
def pyQuote (l : List Char) : Char :=
  if l.contains '\'' && !(l.contains '"') then '"' else '\''

/-- Python 2 repr escaping of one byte of a str, given the chosen quote:
backslash and the quote are backslash-escaped, newline, carriage return and
tab become \n, \r, \t, other printable ASCII stands for itself, and the rest
becomes a \xhh escape (Python 2 strs are byte strings, so codes are
taken mod 256). -/
def pyEscChar (q c : Char) : List Char :=
  if c = '\\' || c = q then ['\\', c]
  else if c = '\n' then ['\\', 'n']
  else if c = '\r' then ['\\', 'r']
  else if c = '\t' then ['\\', 't']
  else if 32 ≤ c.toNat && c.toNat < 127 then [c]
  else ['\\', 'x', hexDigit (c.toNat % 256 / 16), hexDigit (c.toNat % 16)]

/-- Python 2 repr of a str, over its characters. -/
def pyReprChars (l : List Char) : List Char :=
  pyQuote l :: (l.map (pyEscChar (pyQuote l))).flatten ++ [pyQuote l]

/-- Python 2 repr of a str. -/
def pyReprStr (s : String) : String :=
  ⟨pyReprChars s.data⟩

/-- Comma-separated reprs of a tuple's items. -/
def pyReprTupleItems : List String → String
  | [] => ""
  | [x] => pyReprStr x
  | x :: xs => pyReprStr x ++ ", " ++ pyReprTupleItems xs

/-- Python repr of a tuple of strs: parenthesized, comma-separated reprs,
with the trailing comma of a one-element tuple. -/
def pyReprTuple (args : List String) : String :=
  "(" ++ pyReprTupleItems args ++ (if args.length = 1 then ",)" else ")")

/-- A character Python 2 repr leaves untouched inside a single-quoted str:
printable ASCII that is not a backslash or a quote. -/
def plainChar (c : Char) : Bool :=
  decide (32 ≤ c.toNat ∧ c.toNat ≤ 126 ∧ c ≠ '\\' ∧ c ≠ '\'' ∧ c ≠ '"')

/-- Python str() of the value an ERRORS entry holds under data after
marshall_error ran: the args tuple, or None when the args were empty. -/
def pyStrData (d : Option (List String)) : String :=
  match d with
  | none => "None"
  | some t => pyReprTuple t

/-- One in-memory entry of the module-level ERRORS table: the code and
message members it is created with (src/jsonrpc.py lines 6-12), and the data
member marshall_error adds later (absent on a pristine entry; once present it
holds Python None or the exception's args tuple). -/
structure ErrEntry where
  code : Int
  message : String
  data : Option (Option (List String))
deriving DecidableEq, Repr

/-- The mutable ERRORS table as a store: each marshallable error class owns
one dict, aliased by whatever marshall_error returned; classes outside the
table have no entry. -/
def ErrStore := RpcErrKind → Option ErrEntry

/-- The ERRORS table as the module creates it: code and message per class, no
data member yet. -/
def initErrStore : ErrStore := fun k =>
  (errorsTable k).map (fun cm => ⟨cm.1, cm.2, none⟩)

/-- Pointwise update of the store at one class's entry. -/
def ErrStore.set (s : ErrStore) (k : RpcErrKind) (en : ErrEntry) : ErrStore :=
  fun k' => if k' = k then some en else s k'

/-- JSONRPCProtocol.marshall_error (src/jsonrpc.py lines 139-145), with the
table mutation explicit: look the exception's class up in ERRORS (a KeyError
returns None and touches nothing), set the shared entry's data member to
`exc.args or None`, and return that very entry — the returned value is the
table's own dict, so the result is its address, here the class itself. -/
def marshall_error_st (e : RpcErr) (s : ErrStore) : Option RpcErrKind × ErrStore :=
  match s e.kind with
  | none => (none, s)
  | some en =>
    (some e.kind,
     s.set e.kind { en with data := some (if e.args.isEmpty then none else some e.args) })

/-- JSONRPCProtocol.unmarshall_error (src/jsonrpc.py lines 147-153) applied to
an in-memory ERRORS entry (the object marshall_error returns): read the code,
format "message: data" with Python %s formatting, and build the exception
class the EXCEPTIONS table gives the code; a KeyError anywhere — the data
member still absent, or the code unknown — returns None. -/
def unmarshall_error_entry (en : ErrEntry) : Option RpcErr :=
  match en.data with
  | none => none
  | some d =>
    match exceptionsTable en.code with
    | none => none
    | some k => some ⟨k, [en.message ++ ": " ++ pyStrData d]⟩

mutual

/-- Python 2 repr of a value decoded from JSON (json.loads yields unicode
strings, so their repr carries the u prefix). -/
def pyReprJson : Json → String
  | .null => "None"
  | .bool true => "True"
  | .bool false => "False"
  | .num n => toString n
  | .str s => "u" ++ pyReprStr s
  | .arr xs => "[" ++ pyReprJsonList xs ++ "]"
  | .obj kvs => "\x7b" ++ pyReprJsonFields kvs ++ "\x7d"

/-- Comma-separated reprs of a decoded list's elements. -/
def pyReprJsonList : List Json → String
  | [] => ""
  | [x] => pyReprJson x
  | x :: xs => pyReprJson x ++ ", " ++ pyReprJsonList xs

/-- Comma-separated "key: value" reprs of a decoded dict's items. -/
def pyReprJsonFields : List (String × Json) → String
  | [] => ""
  | [(k, v)] => "u" ++ pyReprStr k ++ ": " ++ pyReprJson v
  | (k, v) :: kvs => "u" ++ pyReprStr k ++ ": " ++ pyReprJson v ++ ", " ++ pyReprJsonFields kvs

end

/-- Python str() of a value decoded from JSON, as %s formatting applies it: a
string stands for its text, every other value for its repr. -/
def pyStrJson : Json → String
  | .str s => s
  | v => pyReprJson v

/-- JSONRPCProtocol.unmarshall_error (src/jsonrpc.py lines 147-153) applied to
the error member of a decoded response.  Subscripting a non-dict error value
raises a TypeError the `except KeyError` does not catch; so does indexing the
EXCEPTIONS dict with an unhashable code (a decoded list or dict).  A missing
code, message or data member, or a hashable code outside the table, is a
KeyError and yields None.  Otherwise the matching exception class is built
with the "message: data" text. -/
def unmarshall_error_json (errv : Json) : Except PyErr (Option RpcErr) :=
  match errv with
  | .obj efields =>
    match getField? efields "code" with
    | none => .ok none
    | some code =>
      match getField? efields "message" with
      | none => .ok none
      | some msg =>
        match getField? efields "data" with
        | none => .ok none
        | some dat =>
          match code with
          | .num c =>
            .ok ((exceptionsTable c).map
              (fun k => ⟨k, [pyStrJson msg ++ ": " ++ pyStrJson dat]⟩))
          | .arr _ => .error (.typeError "unhashable type: list")
          | .obj _ => .error (.typeError "unhashable type: dict")
          -- str, bool and null codes are hashable but absent from the
          -- int-keyed EXCEPTIONS dict: a KeyError, so None
          | _ => .ok none
  | v => .error (.typeError (pySubscriptMsg v))

/-- The effect of `raise x` when x may be Python None: raising None is itself
a TypeError in Python 2 (src/jsonrpc.py line 130 with unmarshall_error
returning None). -/
def pyRaise (o : Option RpcErr) : PyErr :=
  match o with
  | some e => .rpc e
  | none => .typeError "exceptions must be old-style classes or instances, not NoneType"

/-- The exception `raise self.unmarshall_error(response['error'])` produces:
a failure inside unmarshall_error propagates, otherwise its return value is
raised (None raising a TypeError). -/
def raisedErrorOf (errv : Json) : PyErr :=
  match unmarshall_error_json errv with
  | .error t => t
  | .ok o => pyRaise o

/-- JSONRPCProtocol.unmarshall_response (src/jsonrpc.py lines 113-137):
decode, validate the jsonrpc member and the presence of id, then: an error
member is unmarshalled and raised (before result is ever looked at), a result
member is returned with the raw response, and neither is an
InvalidResponseError. -/
def unmarshall_response (w : Wire) :
    Except PyErr (List (String × Json) × Json) :=
  match decode w with
  | .error e => .error e
  | .ok (.obj fields) =>
    match getField? fields "jsonrpc" with
    | none => .error (.rpc ⟨.invalidResponseError, ["No \"jsonrpc\" member in response"]⟩)
    | some v =>
      if ¬ v.isVersion20 then
        .error (.rpc ⟨.invalidResponseError, ["Only JSON-RPC 2.0 supported"]⟩)
      else if ¬ hasField fields "id" then
        .error (.rpc ⟨.invalidResponseError, ["No \"id\" member found in response"]⟩)
      else
        match getField? fields "error" with
        | some errv => .error (raisedErrorOf errv)
        | none =>
          match getField? fields "result" with
          | some r => .ok (fields, r)
          | none => .error (.rpc ⟨.invalidResponseError,
              ["No \"result\" or \"error\" member found in response"]⟩)
  | .ok j => .error (.typeError (pySubscriptMsg j))

/-- What a registered handler's body can do when invoked: return a value,
raise a TypeError (an arity or type mismatch at the call), or raise any other
exception with a description. -/
inductive HandlerFail where
  | typeErr (msg : String)
  | exc (msg : String)
deriving DecidableEq, Repr

/-- A registered handler: positional and keyword arguments to an outcome. -/
def HandlerFn := List Json → List (String × Json) → Except HandlerFail Json

/-- Dispatcher.funcs (src/rpc.py line 85): the registry, method name to
handler, as register_function fills it. -/
def Registry := List (String × HandlerFn)

/-- Registry lookup (Python `self.funcs[method]`). -/
def Registry.find? (funcs : Registry) (method : String) : Option HandlerFn :=
  match funcs with
  | [] => none
  | (n, f) :: rest => if n = method then some f else Registry.find? rest method

/-- Dispatcher.dispatch (src/rpc.py lines 91-103).  On a registry miss the
source executes `raise rpc.MethodNotFoundError(method)` (line 96) — but
module rpc never imports itself, so the name rpc is unbound there and the
line raises NameError instead of MethodNotFoundError.  On a hit, the handler
is invoked; a TypeError it raises becomes InvalidParamsError, any other
exception becomes InternalError, each carrying the original description. -/
def dispatch (funcs : Registry) (method : String) (args : List Json)
    (kwargs : List (String × Json)) : Except PyErr Json :=
  match funcs.find? method with
  | none => .error (.nameError "global name 'rpc' is not defined")
  | some f =>
    match f args kwargs with
    | .ok v => .ok v
    | .error (.typeErr m) => .error (.rpc ⟨.invalidParamsError, [m]⟩)
    | .error (.exc m) => .error (.rpc ⟨.internalError, [m]⟩)

/-- Python `f(*args, ...)` unpacking of the positional collection
unmarshall_request returned: a list unpacks to its elements, a string
iterates its characters, a dict its keys, and a scalar raises TypeError. -/
def starArgs : Json → Except PyErr (List Json)
  | .arr xs => .ok xs
  | .str s => .ok (s.data.map (fun c => Json.str (String.mk [c])))
  | .obj kvs => .ok (kvs.map (fun kv => Json.str kv.1))
  | _ => .error (.typeError "argument after * must be a sequence")

/-- The try block of TCPRequestHandler.handle (src/rpc.py lines 111-114),
with the request binding made explicit: unmarshal, then dispatch with the
unpacked arguments.  The first component is what the local `request` holds
when the block finishes or raises (None until the unmarshal's tuple
assignment completes), the second the block's outcome. -/
def tryBlock (funcs : Registry) (w : Wire) :
    Option (List (String × Json)) × Except PyErr Json :=
  match unmarshall_request w with
  | .error e => (none, .error e)
  | .ok (req, method, argsVal, kwargs) =>
    (some req,
     match starArgs argsVal with
     | .error e => .error e
     | .ok args => dispatch funcs method args kwargs)

/-- What one connection's handler ends up doing. -/
inductive HandleOutcome where
  | sent (resp : Wire)
  | silent
  | aborted (e : PyErr)

/-- TCPRequestHandler.handle (src/rpc.py lines 108-123): run the try block;
`except Error as e` captures exactly the rpc.Error hierarchy into `error`,
any other exception propagates out of the handler.  Then marshall_response is
called with the request (as far as it was bound), the result (None unless the
block succeeded) and the captured error, and its response is sent unless it
is None. -/
def handle (funcs : Registry) (w : Wire) : HandleOutcome :=
  match tryBlock funcs w with
  | (request, .ok result) =>
    match marshall_response request result none with
    | some r => .sent r
    | none => .silent
  | (request, .error e) =>
    match e with
    | .rpc re =>
      match marshall_response request .null (some re) with
      | some r => .sent r
      | none => .silent
    | _ => .aborted e

/-! ## Helper lemmas -/

theorem plainChar_spec (c : Char) (h : plainChar c = true) :
    32 ≤ c.toNat ∧ c.toNat ≤ 126 ∧ c ≠ '\\' ∧ c ≠ '\'' ∧ c ≠ '"' := by
  simpa [plainChar] using h

theorem contains_quote_eq_false (l : List Char)
    (h : ∀ c ∈ l, plainChar c = true) : l.contains '\'' = false := by
  simp
  intro hq
  exact ((plainChar_spec _ (h _ hq)).2.2.2.1) rfl

theorem pyQuote_plain (l : List Char) (h : ∀ c ∈ l, plainChar c = true) :
    pyQuote l = '\'' := by
  unfold pyQuote
  rw [contains_quote_eq_false l h]
  rfl

theorem pyEscChar_plain (c : Char) (h : plainChar c = true) :
    pyEscChar '\'' c = [c] := by
  obtain ⟨h1, h2, h3, h4, h5⟩ := plainChar_spec c h
  have hn : c ≠ '\n' := by intro hc; subst hc; simp at h1
  have hr : c ≠ '\r' := by intro hc; subst hc; simp at h1
  have ht : c ≠ '\t' := by intro hc; subst hc; simp at h1
  simp [pyEscChar, h3, h4, hn, hr, ht]
  omega

theorem flatten_esc_plain (l : List Char) (h : ∀ c ∈ l, plainChar c = true) :
    (l.map (pyEscChar '\'')).flatten = l := by
  induction l with
  | nil => rfl
  | cons a t ih =>
    have ha := pyEscChar_plain a (h a (List.mem_cons_self a t))
    have ht := ih (fun c hc => h c (List.mem_cons_of_mem _ hc))
    simp only [List.map_cons, List.flatten_cons, ha, ht, List.singleton_append]

theorem pyReprChars_plain (l : List Char) (h : ∀ c ∈ l, plainChar c = true) :
    pyReprChars l = '\'' :: (l ++ ['\'']) := by
  unfold pyReprChars
  rw [pyQuote_plain l h, flatten_esc_plain l h]
  rfl

theorem error_entry_roundtrip_aux (k : RpcErrKind) (c : Int) (mmsg : String)
    (detail : String) (h1 : errorsTable k = some (c, mmsg))
    (h2 : exceptionsTable c = some k)
    (hp : ∀ ch ∈ detail.data, plainChar ch = true) :
    ∃ en msg,
      (marshall_error_st ⟨k, [detail]⟩ initErrStore).1 = some k ∧
      (marshall_error_st ⟨k, [detail]⟩ initErrStore).2 k = some en ∧
      unmarshall_error_entry en = some ⟨k, [msg]⟩ ∧
      detail.data <:+: msg.data := by
  refine ⟨⟨c, mmsg, some (some [detail])⟩,
    mmsg ++ ": " ++ pyReprTuple [detail], ?_, ?_, ?_, ?_⟩
  · simp [marshall_error_st, initErrStore, h1]
  · simp [marshall_error_st, initErrStore, h1, ErrStore.set]
  · simp [unmarshall_error_entry, h2, pyStrData]
  · refine ⟨mmsg.data ++ (": ").data ++ ("(").data ++ ['\''],
      ['\''] ++ (",)").data, ?_⟩
    have hr : (pyReprStr detail).data = '\'' :: (detail.data ++ ['\'']) := by
      simpa [pyReprStr] using pyReprChars_plain detail.data hp
    simp [pyReprTuple, pyReprTupleItems, String.data_append, hr,
      List.append_assoc]

/-! ## Claim theorems -/

/-- C1 (code_bug): the claim says dispatching a method name absent from the
registry fails with MethodNotFoundError and nothing else.  The source's
lookup-miss path (src/rpc.py line 96) executes `raise
rpc.MethodNotFoundError(method)`, but module rpc never imports itself, so the
name rpc is unbound there and the line raises NameError instead: the code
contradicts the clear intent of its own raise statement.  Evaluated at the
failing input (empty registry, method "missing"), dispatch yields the
NameError and not a MethodNotFoundError. -/
theorem unknown_method_dispatch_nameerror :
    dispatch [] "missing" [] [] =
      .error (.nameError "global name 'rpc' is not defined") ∧
    ∀ args, dispatch [] "missing" [] [] ≠
      .error (.rpc ⟨.methodNotFoundError, args⟩) := by
  refine ⟨rfl, ?_⟩
  intro args h
  simp [dispatch, Registry.find?] at h

/-- C2 (confirmed): for every method name and argument collection that is
purely positional or purely named, marshalling a request and unmarshalling
the produced bytes recovers the raw envelope, the method name, the positional
arguments and the keyword arguments exactly, the other collection empty. -/
theorem marshall_unmarshall_request_roundtrip (m : String) (args : List Json)
    (kwargs : List (String × Json)) (h : args = [] ∨ kwargs = []) :
    marshall_request m args kwargs = .ok (Wire.ok (buildRequest m args kwargs)) ∧
    unmarshall_request (Wire.ok (buildRequest m args kwargs)) =
      .ok (buildRequestFields m args kwargs, m, Json.arr args, kwargs) := by
  rcases h with rfl | rfl
  · constructor
    · simp [marshall_request, encode]
    · cases kwargs with
      | nil =>
        simp [unmarshall_request, decode, buildRequest, buildRequestFields,
          getField?, Json.isVersion20]
      | cons p ps =>
        simp [unmarshall_request, decode, buildRequest, buildRequestFields,
          getField?, Json.isVersion20]
  · constructor
    · simp [marshall_request, encode]
    · cases args with
      | nil =>
        simp [unmarshall_request, decode, buildRequest, buildRequestFields,
          getField?, Json.isVersion20]
      | cons a as =>
        simp [unmarshall_request, decode, buildRequest, buildRequestFields,
          getField?, Json.isVersion20]

/-- Witness for C2 at a concrete input: method "add" with positional
arguments (3, 4). -/
theorem marshall_unmarshall_request_roundtrip_witness :
    marshall_request "add" [.num 3, .num 4] [] =
      .ok (Wire.ok (buildRequest "add" [.num 3, .num 4] [])) ∧
    unmarshall_request (Wire.ok (buildRequest "add" [.num 3, .num 4] [])) =
      .ok (buildRequestFields "add" [.num 3, .num 4] [],
           "add", Json.arr [.num 3, .num 4], []) :=
  marshall_unmarshall_request_roundtrip "add" [.num 3, .num 4] [] (Or.inr rfl)

/-- C3 (counterexample): the claim says ANY failure of any kind in
unmarshalling or dispatching is captured and fed to marshall_response.  It is
false: a request whose body decodes to the JSON number 5 makes
unmarshall_request raise a TypeError, which `except Error` does not catch, so
the handler aborts without ever calling marshall_response. -/
theorem handler_abort_counterexample :
    (tryBlock [] (Wire.ok (.num 5))).2 =
      .error (.typeError "argument of type int is not iterable") ∧
    handle [] (Wire.ok (.num 5)) =
      .aborted (.typeError "argument of type int is not iterable") :=
  ⟨rfl, rfl⟩

/-- C3 (corrected): whenever the try block of the connection handler fails
with an error of the rpc.Error taxonomy, the failure is captured and passed
to marshall_response as the error argument, and the handler still attempts to
produce and send a response — it never aborts, and stays silent only when
marshall_response determines no response is due. -/
theorem rpc_error_always_marshalled (funcs : Registry) (w : Wire) (e : RpcErr)
    (h : (tryBlock funcs w).2 = .error (.rpc e)) :
    handle funcs w =
      (match marshall_response (tryBlock funcs w).1 .null (some e) with
       | some r => HandleOutcome.sent r
       | none => HandleOutcome.silent) := by
  unfold handle
  have hsplit : tryBlock funcs w = ((tryBlock funcs w).1, Except.error (PyErr.rpc e)) := by
    rw [← h]
  rw [hsplit]

/-- Witness for C3's corrected claim at a concrete input: malformed bytes
raise a ParseError, which is captured and marshalled into a response. -/
theorem rpc_error_always_marshalled_witness :
    handle [] (Wire.bad "boom") =
      (match marshall_response (tryBlock [] (Wire.bad "boom")).1 .null
          (some ⟨.parseError, ["boom"]⟩) with
       | some r => HandleOutcome.sent r
       | none => HandleOutcome.silent) :=
  rpc_error_always_marshalled [] (Wire.bad "boom") ⟨.parseError, ["boom"]⟩ rfl

/-- C4 (counterexample): the claim says every request mapping with no id
member — the empty mapping included — suppresses the response.  It is false
for the empty mapping: an empty dict is falsy in Python, so line 96 of
src/jsonrpc.py does not return early and a response with a null id is
produced. -/
theorem empty_request_mapping_gets_response :
    hasField [] "id" = false ∧
    marshall_response (some []) (.num 42) none =
      some (Wire.ok (.obj [("jsonrpc", .str "2.0"), ("id", .null),
        ("result", .num 42)])) :=
  ⟨rfl, rfl⟩

/-- C4 (corrected): for every successfully decoded NON-EMPTY request mapping
without an id member (a notification), marshall_response returns nothing, for
any result and any error, so no bytes are written to the wire; the empty
mapping is instead treated like an unparseable request and receives a
response with a null id. -/
theorem notification_suppresses_response (fields : List (String × Json))
    (result : Json) (error : Option RpcErr) (hne : fields ≠ [])
    (hid : hasField fields "id" = false) :
    marshall_response (some fields) result error = none := by
  cases fields with
  | nil => exact absurd rfl hne
  | cons p ps => simp [marshall_response, hid]

/-- Witness for C4's corrected claim: a decoded notification request carrying
only a method member gets no response. -/
theorem notification_suppresses_response_witness :
    marshall_response (some [("method", .str "f")]) (.num 7) none = none :=
  notification_suppresses_response [("method", .str "f")] (.num 7) none
    (by simp) rfl

/-- C5 (counterexample): the claim says marshalling then unmarshalling an
error of any table kind yields the same kind with a message containing the
original detail text, for EVERY detail message.  For the detail consisting of
one newline character the kind survives but the message does not contain the
detail: Python formats the args tuple with %s, whose repr escapes the newline
to a backslash and an n, so no newline character appears in the message. -/
theorem error_roundtrip_newline_counterexample :
    (marshall_error_st ⟨.parseError, ["\n"]⟩ initErrStore).1 = some .parseError ∧
    (marshall_error_st ⟨.parseError, ["\n"]⟩ initErrStore).2 .parseError =
      some ⟨-32700, "Parse Error", some (some ["\n"])⟩ ∧
    unmarshall_error_entry ⟨-32700, "Parse Error", some (some ["\n"])⟩ =
      some ⟨.parseError, ["Parse Error: ('\\n',)"]⟩ ∧
    ¬ ("\n".data <:+: "Parse Error: ('\\n',)".data) :=
  ⟨rfl, rfl, rfl, by decide⟩

/-- C5 (corrected): for every ErrorKind of the fixed five-entry table and
every detail message made of plain printable characters (no backslash, quote
or control character — otherwise Python repr escaping alters the text),
marshalling the error with marshall_error and unmarshalling the resulting
(aliased) table entry with unmarshall_error yields an error of the same kind
whose message contains the original detail text. -/
theorem error_roundtrip_plain_detail (k : RpcErrKind) (detail : String)
    (hk : (errorsTable k).isSome = true)
    (hp : ∀ ch ∈ detail.data, plainChar ch = true) :
    ∃ en msg,
      (marshall_error_st ⟨k, [detail]⟩ initErrStore).1 = some k ∧
      (marshall_error_st ⟨k, [detail]⟩ initErrStore).2 k = some en ∧
      unmarshall_error_entry en = some ⟨k, [msg]⟩ ∧
      detail.data <:+: msg.data := by
  cases k with
  | parseError => exact error_entry_roundtrip_aux _ _ _ detail rfl rfl hp
  | invalidRequestError => exact error_entry_roundtrip_aux _ _ _ detail rfl rfl hp
  | methodNotFoundError => exact error_entry_roundtrip_aux _ _ _ detail rfl rfl hp
  | invalidParamsError => exact error_entry_roundtrip_aux _ _ _ detail rfl rfl hp
  | internalError => exact error_entry_roundtrip_aux _ _ _ detail rfl rfl hp
  | invalidResponseError => simp [errorsTable] at hk
  | protocolError => simp [errorsTable] at hk

/-- Witness for C5's corrected claim: an InternalError with detail "oops"
round-trips to an InternalError whose message contains "oops". -/
theorem error_roundtrip_plain_detail_witness :
    ∃ en msg,
      (marshall_error_st ⟨.internalError, ["oops"]⟩ initErrStore).1 =
        some .internalError ∧
      (marshall_error_st ⟨.internalError, ["oops"]⟩ initErrStore).2
        .internalError = some en ∧
      unmarshall_error_entry en = some ⟨.internalError, [msg]⟩ ∧
      "oops".data <:+: msg.data :=
  error_roundtrip_plain_detail .internalError "oops" rfl (by decide)

/-- C6 (confirmed): for every response whose decoded envelope is valid
(jsonrpc "2.0" and an id member) and whose error member carries a code absent
from the fixed code table, unmarshall_response surfaces a failure to its
caller — it does not return a result value.  (In the source the EXCEPTIONS
lookup fails, unmarshall_error returns None, and `raise None` is itself a
TypeError.) -/
theorem unknown_error_code_fails (fields efields : List (String × Json))
    (c : Int)
    (hv : getField? fields "jsonrpc" = some (.str "2.0"))
    (hid : hasField fields "id" = true)
    (herr : getField? fields "error" = some (.obj efields))
    (hcode : getField? efields "code" = some (.num c))
    (hc : exceptionsTable c = none) :
    (∃ e, unmarshall_response (Wire.ok (.obj fields)) = .error e) ∧
    ∀ out, unmarshall_response (Wire.ok (.obj fields)) ≠ .ok out := by
  have h1 : unmarshall_response (Wire.ok (.obj fields)) =
      .error (raisedErrorOf (.obj efields)) := by
    simp [unmarshall_response, decode, hv, hid, herr, Json.isVersion20]
  refine ⟨⟨raisedErrorOf (.obj efields), h1⟩, fun out hout => ?_⟩
  rw [h1] at hout
  exact Except.noConfusion hout

/-- Witness for C6 at a concrete input: a valid envelope whose error member
carries code 1, which no ErrorKind owns. -/
theorem unknown_error_code_fails_witness :
    (∃ e, unmarshall_response (Wire.ok (.obj [("jsonrpc", .str "2.0"),
      ("id", .num 1),
      ("error", .obj [("code", .num 1), ("message", .str "m"),
        ("data", .null)])])) = .error e) ∧
    ∀ out, unmarshall_response (Wire.ok (.obj [("jsonrpc", .str "2.0"),
      ("id", .num 1),
      ("error", .obj [("code", .num 1), ("message", .str "m"),
        ("data", .null)])])) ≠ .ok out :=
  unknown_error_code_fails [("jsonrpc", .str "2.0"), ("id", .num 1),
    ("error", .obj [("code", .num 1), ("message", .str "m"), ("data", .null)])]
    [("code", .num 1), ("message", .str "m"), ("data", .null)] 1
    rfl rfl rfl rfl rfl

/-- C7 (counterexample): the claim says an error of a kind outside the table
marshals to no error object AND nothing is sent on the wire.  The second half
is false: marshall_error does return None, but marshall_response still
serializes and returns a full response envelope whose error member is null,
so bytes are sent. -/
theorem unknown_kind_response_sent_counterexample :
    marshallErrorJson ⟨.protocolError, ["x"]⟩ = none ∧
    marshall_response (some [("id", .num 0)]) .null
        (some ⟨.protocolError, ["x"]⟩) =
      some (Wire.ok (.obj [("jsonrpc", .str "2.0"), ("id", .num 0),
        ("error", .null)])) :=
  ⟨rfl, rfl⟩

/-- C7 (corrected): for every error whose kind is outside the fixed
five-entry table, marshall_error produces no error object (None), and a
response built via marshall_response with such an error is still serialized
and sent — its error member is null rather than an error object. -/
theorem unknown_kind_marshals_null_error (k : RpcErrKind) (args : List String)
    (result : Json) (hk : errorsTable k = none) :
    marshallErrorJson ⟨k, args⟩ = none ∧
    marshall_response none result (some ⟨k, args⟩) =
      some (Wire.ok (.obj [("jsonrpc", .str "2.0"), ("id", .null),
        ("error", .null)])) := by
  constructor
  · simp [marshallErrorJson, hk]
  · simp [marshall_response, encode, marshallErrorJson, hk]

/-- Witness for C7's corrected claim at a concrete input: a ProtocolError. -/
theorem unknown_kind_marshals_null_error_witness :
    marshallErrorJson ⟨.protocolError, ["y"]⟩ = none ∧
    marshall_response none (.num 1) (some ⟨.protocolError, ["y"]⟩) =
      some (Wire.ok (.obj [("jsonrpc", .str "2.0"), ("id", .null),
        ("error", .null)])) :=
  unknown_kind_marshals_null_error .protocolError ["y"] (.num 1) rfl

/-- C8 (confirmed): marshall_error mutates the module-level ERRORS table:
the entry of the exception's kind gains a data member holding
`exc.args or None`, the returned object is the very table entry itself (the
returned address is the kind's entry), and a later marshall_error call for
the same kind overwrites the contents seen through every previously returned
object. -/
theorem marshall_error_mutates_table (e : RpcErr) (s : ErrStore) (en : ErrEntry)
    (h : s e.kind = some en) :
    (marshall_error_st e s).1 = some e.kind ∧
    (marshall_error_st e s).2 e.kind =
      some { en with data := some (if e.args.isEmpty then none else some e.args) } ∧
    ∀ e2 : RpcErr, e2.kind = e.kind →
      (marshall_error_st e2 (marshall_error_st e s).2).2 e.kind =
        some { en with data := some (if e2.args.isEmpty then none else some e2.args) } := by
  refine ⟨?_, ?_, ?_⟩
  · simp [marshall_error_st, h]
  · simp [marshall_error_st, h, ErrStore.set]
  · intro e2 h2
    simp [marshall_error_st, h, ErrStore.set, h2]

/-- Witness for C8 at a concrete input: marshalling ParseError("a") over the
pristine table, then ParseError("b"), overwrites the shared entry. -/
theorem marshall_error_mutates_table_witness :
    (marshall_error_st ⟨.parseError, ["a"]⟩ initErrStore).1 =
      some RpcErrKind.parseError ∧
    (marshall_error_st ⟨.parseError, ["a"]⟩ initErrStore).2 .parseError =
      some ⟨-32700, "Parse Error", some (some ["a"])⟩ ∧
    ∀ e2 : RpcErr, e2.kind = RpcErrKind.parseError →
      (marshall_error_st e2
        (marshall_error_st ⟨.parseError, ["a"]⟩ initErrStore).2).2 .parseError =
        some ⟨-32700, "Parse Error",
          some (if e2.args.isEmpty then none else some e2.args)⟩ :=
  marshall_error_mutates_table ⟨.parseError, ["a"]⟩ initErrStore
    ⟨-32700, "Parse Error", none⟩ rfl

/-- C9 (confirmed): when a decoded response envelope holds both an error and
a result member, the error wins: unmarshall_response fails with the exception
reconstructed (and raised) from the error member, and the result value is
never returned. -/
theorem error_takes_precedence_over_result (fields : List (String × Json))
    (errv resv : Json)
    (hv : getField? fields "jsonrpc" = some (.str "2.0"))
    (hid : hasField fields "id" = true)
    (herr : getField? fields "error" = some errv)
    (hres : getField? fields "result" = some resv) :
    unmarshall_response (Wire.ok (.obj fields)) = .error (raisedErrorOf errv) ∧
    ∀ out, unmarshall_response (Wire.ok (.obj fields)) ≠ .ok out := by
  have h1 : unmarshall_response (Wire.ok (.obj fields)) =
      .error (raisedErrorOf errv) := by
    simp [unmarshall_response, decode, hv, hid, herr, Json.isVersion20]
  refine ⟨h1, fun out hout => ?_⟩
  rw [h1] at hout
  exact Except.noConfusion hout

/-- Witness for C9 at a concrete input: an envelope carrying both a
MethodNotFoundError error object and the result 7 fails with the
reconstructed error; 7 is discarded. -/
theorem error_takes_precedence_over_result_witness :
    unmarshall_response (Wire.ok (.obj [("jsonrpc", .str "2.0"),
      ("id", .num 1),
      ("error", .obj [("code", .num (-32601)),
        ("message", .str "Method not found"), ("data", .arr [.str "sub"])]),
      ("result", .num 7)])) =
      .error (raisedErrorOf (.obj [("code", .num (-32601)),
        ("message", .str "Method not found"), ("data", .arr [.str "sub"])])) ∧
    ∀ out, unmarshall_response (Wire.ok (.obj [("jsonrpc", .str "2.0"),
      ("id", .num 1),
      ("error", .obj [("code", .num (-32601)),
        ("message", .str "Method not found"), ("data", .arr [.str "sub"])]),
      ("result", .num 7)])) ≠ .ok out :=
  error_takes_precedence_over_result [("jsonrpc", .str "2.0"), ("id", .num 1),
    ("error", .obj [("code", .num (-32601)),
      ("message", .str "Method not found"), ("data", .arr [.str "sub"])]),
    ("result", .num 7)]
    (.obj [("code", .num (-32601)), ("message", .str "Method not found"),
      ("data", .arr [.str "sub"])])
    (.num 7) rfl rfl rfl rfl

/-- C10 (confirmed): for every wire payload that decodes to a non-mapping
value, unmarshall_request fails with a TypeError — not an error of the
rpc.Error taxonomy, so neither ParseError nor InvalidRequestError — and at
the connection handler this failure is not caught: the handler aborts and no
wire error response is produced. -/
theorem non_mapping_request_aborts (funcs : Registry) (j : Json)
    (h : ∀ fields, j ≠ .obj fields) :
    ∃ m, unmarshall_request (Wire.ok j) = .error (.typeError m) ∧
      PyErr.isRpc (.typeError m) = false ∧
      handle funcs (Wire.ok j) = .aborted (.typeError m) := by
  cases j with
  | obj fields => exact absurd rfl (h fields)
  | null => exact ⟨_, rfl, rfl, rfl⟩
  | bool b => exact ⟨_, rfl, rfl, rfl⟩
  | num n => exact ⟨_, rfl, rfl, rfl⟩
  | str s => exact ⟨_, rfl, rfl, rfl⟩
  | arr xs => exact ⟨_, rfl, rfl, rfl⟩

/-- Witness for C10 at a concrete input: a JSON array request. -/
theorem non_mapping_request_aborts_witness :
    ∃ m, unmarshall_request (Wire.ok (.arr [])) = .error (.typeError m) ∧
      PyErr.isRpc (.typeError m) = false ∧
      handle [] (Wire.ok (.arr [])) = .aborted (.typeError m) :=
  non_mapping_request_aborts [] (.arr []) (fun _ hyp => Json.noConfusion hyp)

end JsonRpc
